import Mathlib

/-!
Verification development for the Download_bot repository (src/app.py).

The file shallowly embeds the pure core of the bot:
  * `format_size`        — the human-readable size formatter (app.py lines 83-89);
  * `is_valid_url`       — the URL classifier (lines 92-117);
  * `build_ydl_opts`     — the option-building section of `download_media`
                           (lines 123-179), the spec's Download Option Planner;
  * `splitext_base`, `resolve_artifact`
                         — the artifact-resolution section of `download_media`
                           (lines 190-205), the spec's Artifact Resolver;
  * `download_media`     — the executor's result shape (lines 182-227), with the
                           engine invocation itself supplied as an oracle value;
  * `url_storage_put` / `url_storage_get`
                         — the callback-token store (lines 230-237, 396-397);
  * `split_on_bar`, `handle_callback`
                         — the callback handler's control flow (lines 377-511).

Modelling conventions: Python dicts of options become a structure with
`Option`-valued fields for keys that may be absent; the filesystem (the `temp`
scratch directory) is a list of file entries carrying path, creation time and
size; the engine call and the delivery call are oracle parameters, so the
handler is a pure function from its inputs to an outcome and a final
filesystem.  Python floats in `format_size` are modelled by exact scaled
integer arithmetic (the value after k divisions by 1024.0 is the rational
n / 1024^k, which a double represents exactly for n < 2^53).
-/

/-- Substring search on character lists: `containsSub s p` is true iff `p`
occurs contiguously inside `s`.  This models Python's `pat in s` (and
`re.search` for the patterns of app.py, all of which reduce to literal
substring search, see `youtube_patterns` below). -/
def containsSub : List Char → List Char → Bool
  | [], p => p.isEmpty
  | s@(_ :: rest), p => p.isPrefixOf s || containsSub rest p

/-- Python's `pat in s` on strings. -/
def strContains (s pat : String) : Bool := containsSub s.toList pat.toList

/-- Python's `str.lower()` restricted to the ASCII alphabet (all patterns the
source matches case-insensitively are ASCII). -/
def strLower (s : String) : String := String.mk (s.toList.map Char.toLower)

/-- CPython's `f"{x:.1f}"` applied to the exact rational `num / den`
(`den > 0` a power of 1024): round to one decimal digit, ties to even. -/
def format_one_decimal (num den : Nat) : String :=
  let t := num * 10
  let q := t / den
  let r := t % den
  let tenths := if 2 * r < den then q else if den < 2 * r then q + 1 else (if q % 2 = 0 then q else q + 1)
  Nat.repr (tenths / 10) ++ "." ++ Nat.repr (tenths % 10)

/-- The loop of `format_size` (app.py lines 85-89).  The running float value
is represented exactly as `num / den`; `bytes < 1024.0` is `num < 1024 * den`
and `bytes /= 1024.0` multiplies the denominator by 1024. -/
def format_size_aux : List String → Nat → Nat → String
  | [], num, den => format_one_decimal num den ++ " TB"
  | u :: us, num, den =>
    if num < 1024 * den then format_one_decimal num den ++ " " ++ u
    else format_size_aux us num (den * 1024)

/-- app.py lines 83-89: convert a byte count to a human readable string. -/
def format_size (bytes : Nat) : String :=
  format_size_aux ["B", "KB", "MB", "GB"] bytes 1

example : format_size 1048576 = "1.0 MB" := by decide
example : format_size 0 = "0.0 B" := by decide
example : format_size 1099511627776 = "1.0 TB" := by decide

/-!  URL Classifier (app.py lines 92-117). Each Python pattern is matched with
`re.search(pattern, url, re.IGNORECASE)`.  Every pattern has the shape
`(https?://)?(www\.)?(lit1|lit2|...)/` whose leading groups are optional and
whose alternatives are literals, so `re.search` succeeds iff some `liti ++ "/"`
occurs as a substring of the URL; `re.IGNORECASE` is modelled by lowercasing
the URL before matching the (lowercase) literals. -/

/-- app.py lines 94-97: the two `youtube_patterns`. -/
def youtube_patterns : List (String → Bool) :=
  [fun u => strContains u "youtube.com/" || strContains u "youtu.be/" ||
      strContains u "m.youtube.com/",
   fun u => strContains u "youtube.com/shorts/"]

/-- app.py lines 98-100: `tiktok_patterns`. -/
def tiktok_patterns : List (String → Bool) :=
  [fun u => strContains u "tiktok.com/" || strContains u "vm.tiktok.com/"]

/-- app.py lines 101-103: `twitter_patterns`. -/
def twitter_patterns : List (String → Bool) :=
  [fun u => strContains u "twitter.com/" || strContains u "x.com/"]

/-- One of the source's `for pattern in ...: if re.search(...)` loops: true iff
some pattern in the list matches. -/
def search_any (pats : List (String → Bool)) (u : String) : Bool :=
  pats.any (fun p => p u)

/-- app.py lines 92-117: `is_valid_url`.  Returns `(True, tag)` for the first
platform whose pattern list matches, `(False, None)` otherwise. -/
def is_valid_url (url : String) : Bool × Option String :=
  let u := strLower url
  if search_any youtube_patterns u then (true, some "youtube")
  else if search_any tiktok_patterns u then (true, some "tiktok")
  else if search_any twitter_patterns u then (true, some "twitter")
  else (false, none)

/-- Modelled from the spec's words (section 4.1): the classifier tries the
platform pattern lists in the declared precedence order YouTube, TikTok,
Twitter/X and the first match wins; no match means unsupported.  Used only to
compare against `is_valid_url`, which is translated from the source. -/
def platform_order : List ((String → Bool) × String) :=
  [(search_any youtube_patterns, "youtube"),
   (search_any tiktok_patterns, "tiktok"),
   (search_any twitter_patterns, "twitter")]

/-- Modelled from the spec's words: first-match classification over
`platform_order`. -/
def classify_first_match (url : String) : Bool × Option String :=
  match platform_order.find? (fun pt => pt.1 (strLower url)) with
  | some pt => (true, some pt.2)
  | none => (false, none)

/-!  Download Option Planner: the `ydl_opts` construction inside
`download_media` (app.py lines 123-179). -/

/-- One entry of the `postprocessors` list of `ydl_opts`. -/
structure PostProcessor where
  key : String
  preferredcodec : String
  preferredquality : String
deriving DecidableEq

/-- The `ydl_opts` dictionary (app.py lines 125-179).  Keys that may be absent
from the dict are `Option`-valued (`none` = key absent) or default to their
falsy value (`postprocessors` = `[]`, `noplaylist` = `false`). -/
structure YdlOpts where
  outtmpl : String
  quiet : Bool
  no_warnings : Bool
  extract_flat : Bool
  restrictfilenames : Bool
  ignoreerrors : Bool
  no_check_certificate : Bool
  concurrent_fragment_downloads : Nat
  retries : Nat
  fragment_retries : Nat
  skip_unavailable_fragments : Bool
  format : Option String
  postprocessors : List PostProcessor
  noplaylist : Bool
  cookiefile : Option String
  merge_output_format : Option String
  http_headers : Option String
deriving DecidableEq

/-- The browser User-Agent attached for TikTok and Twitter/X
(app.py lines 163-165 and 169-171). -/
def browser_user_agent : String :=
  "Mozilla/5.0 (Windows NT 10.0; Win64; x64) AppleWebKit/537.36"

/-- app.py lines 125-137: the base `ydl_opts` dict, before platform-specific
updates.  `outtmpl` is `os.path.join(TEMP_DIR, '%(title).100s.%(ext)s')` with
`TEMP_DIR = "temp"`. -/
def base_ydl_opts : YdlOpts where
  outtmpl := "temp/%(title).100s.%(ext)s"
  quiet := true
  no_warnings := true
  extract_flat := false
  restrictfilenames := true
  ignoreerrors := true
  no_check_certificate := true
  concurrent_fragment_downloads := 4
  retries := 1
  fragment_retries := 1
  skip_unavailable_fragments := true
  format := none
  postprocessors := []
  noplaylist := false
  cookiefile := none
  merge_output_format := none
  http_headers := none

/-- app.py lines 123-179: the option-building part of `download_media`.
`cookie_path` is `os.getenv("YOUTUBE_COOKIE_PATH", "cookies.txt")`.  First the
platform branch (lines 140-172, substring tests on the raw URL), then the
non-YouTube video override (lines 174-179). -/
def build_ydl_opts (url format_type quality cookie_path : String) : YdlOpts :=
  let o1 :=
    if strContains url "youtube.com" || strContains url "youtu.be" then
      if format_type == "audio" then
        { base_ydl_opts with
            format := some "bestaudio/best",
            postprocessors := [{ key := "FFmpegExtractAudio",
                                 preferredcodec := "mp3",
                                 preferredquality := "128" }],
            noplaylist := true,
            cookiefile := some cookie_path }
      else
        { base_ydl_opts with
            format := some "bestvideo+bestaudio/best",
            merge_output_format := some "mp4",
            noplaylist := true,
            cookiefile := some cookie_path }
    else if strContains url "tiktok.com" then
      { base_ydl_opts with http_headers := some browser_user_agent }
    else if strContains url "twitter.com" || strContains url "x.com" then
      { base_ydl_opts with http_headers := some browser_user_agent }
    else base_ydl_opts
  if format_type == "video" && !strContains url "youtube" then
    if quality == "best" then { o1 with format := some "best[height<=720]/best" }
    else { o1 with format := some ("best[height<=" ++ quality ++ "]/best") }
  else o1

/-- Decimal digits to a number, `none` if the list is empty or has a
non-digit.  Used only by `selector_ceiling`. -/
def dec_digits_to_nat (l : List Char) : Option Nat :=
  if l ≠ [] ∧ l.all (fun c => c.isDigit) then
    some (l.foldl (fun a c => a * 10 + (c.toNat - 48)) 0)
  else none

/-- Interpretation of a yt-dlp format selector string as used by this code
base: `best[height<=N]/best` has resolution ceiling `N`; the other selectors
the code emits (`bestvideo+bestaudio/best`, `bestaudio/best`) have no height
ceiling.  This is a spec-side reading used to state claims about quality
tiers. -/
def selector_ceiling (s : String) : Option Nat :=
  let l := s.toList
  let pre := "best[height<=".toList
  let suf := "]/best".toList
  if pre.isPrefixOf l && suf.isSuffixOf l && pre.length + suf.length ≤ l.length then
    dec_digits_to_nat ((l.drop pre.length).take (l.length - pre.length - suf.length))
  else none

example : selector_ceiling "best[height<=480]/best" = some 480 := by decide
example : selector_ceiling "bestvideo+bestaudio/best" = none := by decide
example : selector_ceiling "best[height<=720]/best" = some 720 := by decide

/-!  Selection Token Store: the module-level dict `url_storage = {}`
(app.py line 230), written in `create_quality_keyboard` (lines 236-237) and
read in `handle_callback` (line 397).  The dict is modelled as an association
list where assignment prepends and lookup returns the most recent binding,
which is observationally the same as Python dict assignment/`dict.get`.
Python's process-seeded `hash` builtin is a parameter `h`. -/

/-- Python's `s[-8:]`: the last eight characters (the whole string when it is
shorter). -/
def last_eight (s : String) : String :=
  String.mk (s.toList.drop (s.toList.length - 8))

/-- app.py line 236: `url_hash = str(hash(url))[-8:]`, with the seeded builtin
`hash` supplied as the parameter `h`. -/
def url_hash_of (h : String → Int) (url : String) : String :=
  last_eight (toString (h url))

/-- app.py lines 236-237: derive the token and store
`url_storage[url_hash] = url`; returns the updated store and the token. -/
def url_storage_put (h : String → Int) (store : List (String × String))
    (url : String) : List (String × String) × String :=
  let tok := url_hash_of h url
  ((tok, url) :: store, tok)

/-- app.py line 397: `url_storage.get(url_hash)` — `none` when the token is
absent. -/
def url_storage_get (store : List (String × String)) (tok : String) :
    Option String :=
  (store.find? (fun e => e.1 == tok)).map (fun e => e.2)

/-- Worker for `split_on_bar`: accumulates the current segment (reversed). -/
def split_on_bar_aux : List Char → List Char → List String
  | [], acc => [String.mk acc.reverse]
  | c :: cs, acc =>
    if c = '|' then String.mk acc.reverse :: split_on_bar_aux cs []
    else split_on_bar_aux cs (c :: acc)

/-- Python's `data.split("|")` (app.py line 390). -/
def split_on_bar (s : String) : List String := split_on_bar_aux s.toList []

example : split_on_bar "dl|video|best|a1b2c3d4" = ["dl", "video", "best", "a1b2c3d4"] := by decide
example : split_on_bar "cancel" = ["cancel"] := by decide

/-!  Filesystem model.  The scratch directory `temp` is a list of regular
files, each with its path (as produced by `os.path.join(TEMP_DIR, name)`),
creation time (`os.path.getctime`) and size (`os.path.getsize`). -/

/-- One regular file of the scratch directory. -/
structure FileEnt where
  path : String
  ctime : Nat
  size : Nat
deriving DecidableEq

/-- The scratch directory contents. -/
abbrev Fs := List FileEnt

/-- `os.path.exists(p)` restricted to the scratch directory (every artifact
the engine writes lands there because `outtmpl` points into it). -/
def Fs.existsFile (fs : Fs) (p : String) : Bool :=
  fs.any (fun e => e.path == p)

/-- `os.path.getsize(p)` (only called after an existence check). -/
def Fs.getsize (fs : Fs) (p : String) : Nat :=
  match fs.find? (fun e => e.path == p) with
  | some e => e.size
  | none => 0

/-- `os.remove(p)`. -/
def Fs.removeFile (fs : Fs) (p : String) : Fs :=
  fs.filter (fun e => e.path != p)

/-- Index of the last occurrence of `c` in `l`. -/
def lastIndexOf (l : List Char) (c : Char) : Option Nat :=
  l.enum.foldl (fun acc p => if p.2 = c then some p.1 else acc) none

/-- `os.path.splitext(p)[0]` (CPython `genericpath._splitext` with separator
`/`): drop the extension starting at the last dot, provided that dot lies
inside the final path component and is preceded there by some non-dot
character (leading dots of the basename never start an extension). -/
def splitext_base (p : String) : String :=
  let l := p.toList
  match lastIndexOf l '.' with
  | none => p
  | some dotIndex =>
    let fnameIndex : Nat :=
      match lastIndexOf l '/' with
      | none => 0
      | some si => si + 1
    if fnameIndex ≤ dotIndex then
      if (List.range dotIndex).any
          (fun k => decide (fnameIndex ≤ k) && (l.getD k '.' != '.')) then
        String.mk (l.take dotIndex)
      else p
    else p

example : splitext_base "temp/video.mp4" = "temp/video" := by decide
example : splitext_base "temp/.bashrc" = "temp/.bashrc" := by decide
example : splitext_base "temp/a.b.c" = "temp/a.b" := by decide

/-- `os.path.basename(p)`. -/
def basename (p : String) : String :=
  match lastIndexOf p.toList '/' with
  | none => p
  | some i => String.mk (p.toList.drop (i + 1))

/-- Python's `max(files, key=os.path.getctime)` starting from a current
maximum `e`: scan left to right and replace the current maximum only on a
strictly greater key, so the first maximal element wins. -/
def maxByCtime (e : FileEnt) : Fs → FileEnt
  | [] => e
  | f :: rest => maxByCtime (if e.ctime < f.ctime then f else e) rest

/-- app.py lines 194-205, the spec's Artifact Resolver: for audio requests
replace the predicted extension with `.mp3`; if the resulting path does not
exist, fall back to the most recently created file of the scratch directory;
if the directory holds no files, fail (`return None, None, None`). -/
def resolve_artifact (predicted format_type : String) (fs : Fs) :
    Option String :=
  let filepath := if format_type == "audio" then splitext_base predicted ++ ".mp3"
                  else predicted
  if Fs.existsFile fs filepath then some filepath
  else
    match fs with
    | [] => none
    | e :: rest => some (maxByCtime e rest).path

/-!  Download Executor (app.py lines 120-227).  The engine invocation
(`ydl.extract_info` run in an executor, plus `ydl.prepare_filename`) performs
network and filesystem I/O; its outcome is supplied as an `EngineResult`
oracle: either the extracted metadata together with the path the engine
predicts for the artifact, or the message of the raised exception.  The `fs`
argument is the scratch directory as the engine left it. -/

/-- Metadata the engine returns (the fields `download_media` reads from
`info`, app.py lines 209-216, with their `info.get` defaults applied). -/
structure MediaInfo where
  title : String
  duration : Nat
  uploader : String
  view_count : Nat
  like_count : Nat
  upload_date : String
  /-- what `ydl.prepare_filename(info)` returns (app.py line 192). -/
  predictedPath : String
deriving DecidableEq

/-- Outcome of the engine invocation. -/
inductive EngineResult where
  | ok (info : MediaInfo)
  | err (msg : String)
deriving DecidableEq

/-- The metadata dict built at app.py lines 209-216. -/
structure Metadata where
  title : String
  duration : Nat
  uploader : String
  view_count : Nat
  like_count : Nat
  upload_date : String
deriving DecidableEq

/-- app.py lines 209-216. -/
def metadataOf (i : MediaInfo) : Metadata where
  title := i.title
  duration := i.duration
  uploader := i.uploader
  view_count := i.view_count
  like_count := i.like_count
  upload_date := i.upload_date

/-- The three shapes of `download_media`'s returned triple:
`(filepath, filename, metadata)`, `("TWITTER_ERROR", None, None)` and
`(None, None, None)`. -/
inductive DlResult where
  | ok (filepath filename : String) (meta : Metadata)
  | twitterError
  | failed
deriving DecidableEq

/-- app.py lines 120-227: `download_media`'s result, given the engine outcome.
On an exception (lines 220-227) the lowercased message is searched for the
Twitter/X tokens; on success the artifact is resolved (lines 190-205) and the
result assembled (lines 207-218).  The option construction
(`build_ydl_opts`) configures the engine and is modelled separately. -/
def download_media (url format_type quality : String) (engine : EngineResult)
    (fs : Fs) : DlResult :=
  match engine with
  | .err e =>
    let error_msg := strLower e
    if strContains error_msg "twitter" || strContains error_msg "x.com" then
      .twitterError
    else .failed
  | .ok info =>
    match resolve_artifact info.predictedPath format_type fs with
    | none => .failed
    | some filepath => .ok filepath (basename filepath) (metadataOf info)

/-- app.py line 66: `MAX_FILE_SIZE = 50 * 1024 * 1024`. -/
def MAX_FILE_SIZE : Nat := 50 * 1024 * 1024

/-- User-visible terminal outcome of one `handle_callback` run. -/
inductive Outcome where
  /-- app.py line 386: the `cancel` payload. -/
  | cancelled
  /-- app.py line 392: malformed payload, the handler just returns. -/
  | ignored
  /-- app.py lines 399-404: token not in `url_storage`. -/
  | sessionExpired
  /-- app.py lines 419-430: the `TWITTER_ERROR` sentinel. -/
  | platformBlocked
  /-- app.py lines 432-442: no usable artifact. -/
  | downloadFailed
  /-- app.py lines 446-455: artifact over the limit; carries the two
  formatted sizes shown to the user. -/
  | tooLarge (actual limit : String)
  /-- app.py lines 466-494: file sent. -/
  | delivered
  /-- app.py lines 496-506: sending raised. -/
  | deliveryFailed
deriving DecidableEq

/-- app.py lines 377-511: `handle_callback` as a pure function.  Inputs are
the token store, the callback payload `data`, the engine outcome oracle, the
scratch directory after the engine ran, and whether the delivery call
(`send_audio`/`send_video`) succeeds; outputs are the user-visible outcome
and the final scratch directory.  Message edits/sends are transport effects
and are represented by the outcome alone; the handler never writes to the
token store. -/
def handle_callback (store : List (String × String)) (data : String)
    (engine : EngineResult) (fs : Fs) (deliveryOk : Bool) : Outcome × Fs :=
  if data = "cancel" then (.cancelled, fs)
  else
    let parts := split_on_bar data
    if parts.length ≠ 4 ∨ parts.getD 0 "" ≠ "dl" then (.ignored, fs)
    else
      let format_type := parts.getD 1 ""
      let quality := parts.getD 2 ""
      let url_hash := parts.getD 3 ""
      match url_storage_get store url_hash with
      | none => (.sessionExpired, fs)
      | some url =>
        match download_media url format_type quality engine fs with
        | .twitterError => (.platformBlocked, fs)
        | .failed => (.downloadFailed, fs)
        | .ok filepath _filename _meta =>
          -- line 432: `if not filepath or not os.path.exists(filepath)`
          if Fs.existsFile fs filepath = false then (.downloadFailed, fs)
          else
            let file_size := Fs.getsize fs filepath
            if MAX_FILE_SIZE < file_size then
              (.tooLarge (format_size file_size) (format_size MAX_FILE_SIZE),
               Fs.removeFile fs filepath)
            else
              -- lines 466-511: send, then the `finally` cleanup
              ((if deliveryOk then .delivered else .deliveryFailed),
               if Fs.existsFile fs filepath then Fs.removeFile fs filepath
               else fs)

/-!  Helper lemmas. -/

/-- String append is associative. -/
theorem str_append_assoc (a b c : String) : a ++ b ++ c = a ++ (b ++ c) := by
  cases a with
  | mk da =>
    cases b with
    | mk db =>
      cases c with
      | mk dc =>
        show String.mk (da ++ db ++ dc) = String.mk (da ++ (db ++ dc))
        rw [List.append_assoc]

/-- A payload that splits into the four-part download shape is not the
literal `cancel`. -/
theorem ne_cancel_of_split {data f q tok : String}
    (h : split_on_bar data = ["dl", f, q, tok]) : data ≠ "cancel" := by
  intro he
  subst he
  have hc : split_on_bar "cancel" = ["cancel"] := by decide
  rw [hc] at h
  injection h with h1 _
  exact absurd h1 (by decide)

/-- Removing a path removes it: the deleted artifact no longer exists. -/
theorem Fs.existsFile_removeFile (fs : Fs) (p : String) :
    Fs.existsFile (Fs.removeFile fs p) p = false := by
  simp only [Fs.existsFile, Fs.removeFile, List.any_eq_false, List.mem_filter]
  intro e he
  have h2 : e.path ≠ p := by simpa using he.2
  simpa using h2

/-- `maxByCtime e rest` is `e` or a member of `rest`, and its ctime bounds
both `e`'s and every member's. -/
theorem maxByCtime_mem_le (rest : Fs) (e : FileEnt) :
    (maxByCtime e rest = e ∨ maxByCtime e rest ∈ rest) ∧
    e.ctime ≤ (maxByCtime e rest).ctime ∧
    ∀ g ∈ rest, g.ctime ≤ (maxByCtime e rest).ctime := by
  induction rest generalizing e with
  | nil => simp [maxByCtime]
  | cons f rs ih =>
    simp only [maxByCtime]
    by_cases h : e.ctime < f.ctime
    · rw [if_pos h]
      obtain ⟨hmem, hle, hall⟩ := ih f
      refine ⟨?_, by omega, ?_⟩
      · rcases hmem with h1 | h1
        · right; rw [h1]; exact List.mem_cons_self f rs
        · right; exact List.mem_cons_of_mem f h1
      · intro g hg
        rcases List.mem_cons.mp hg with rfl | hg2
        · exact hle
        · exact hall g hg2
    · rw [if_neg h]
      obtain ⟨hmem, hle, hall⟩ := ih e
      refine ⟨?_, hle, ?_⟩
      · rcases hmem with h1 | h1
        · left; exact h1
        · right; exact List.mem_cons_of_mem f h1
      · intro g hg
        rcases List.mem_cons.mp hg with rfl | hg2
        · omega
        · exact hall g hg2

/-!  The ten claims. -/

/-- C9: the size formatter maps 1048576 bytes to `"1.0 MB"`, 0 bytes to
`"0.0 B"` and 1099511627776 bytes to `"1.0 TB"`, and for every non-negative
integer input it selects the unit by successive divide-by-1024 steps and
renders one decimal place (integers below 1024 render as `n.0 B`; each later
range divides by the corresponding power of 1024 and formats the exact
quotient to one decimal). -/
theorem format_size_spec :
    format_size 1048576 = "1.0 MB" ∧
    format_size 0 = "0.0 B" ∧
    format_size 1099511627776 = "1.0 TB" ∧
    (∀ n : Nat, n < 1024 → format_size n = Nat.repr n ++ ".0 B") ∧
    (∀ n : Nat, 1024 ≤ n → n < 1048576 →
       format_size n = format_one_decimal n 1024 ++ " KB") ∧
    (∀ n : Nat, 1048576 ≤ n → n < 1073741824 →
       format_size n = format_one_decimal n 1048576 ++ " MB") ∧
    (∀ n : Nat, 1073741824 ≤ n → n < 1099511627776 →
       format_size n = format_one_decimal n 1073741824 ++ " GB") ∧
    (∀ n : Nat, 1099511627776 ≤ n →
       format_size n = format_one_decimal n 1099511627776 ++ " TB") := by
  refine ⟨by decide, by decide, by decide, ?_, ?_, ?_, ?_, ?_⟩
  · intro n hn
    simp only [format_size, format_size_aux]
    rw [if_pos (show n < 1024 * 1 by omega)]
    simp only [format_one_decimal, Nat.mod_one, Nat.div_one]
    have h1 : n * 10 / 10 = n := by omega
    have h2 : n * 10 % 10 = 0 := by omega
    simp only [Nat.mul_zero, Nat.zero_lt_one, if_pos, h1, h2]
    simp only [str_append_assoc]
    congr 1
  · intro n hlo hhi
    simp only [format_size, format_size_aux]
    rw [if_neg (by omega), if_pos (by omega)]
    simp only [str_append_assoc]
    congr 1
  · intro n hlo hhi
    simp only [format_size, format_size_aux]
    rw [if_neg (by omega), if_neg (by omega), if_pos (by omega)]
    simp only [str_append_assoc]
    congr 1
  · intro n hlo hhi
    simp only [format_size, format_size_aux]
    rw [if_neg (by omega), if_neg (by omega), if_neg (by omega), if_pos (by omega)]
    simp only [str_append_assoc]
    congr 1
  · intro n hlo
    simp only [format_size, format_size_aux]
    rw [if_neg (by omega), if_neg (by omega), if_neg (by omega), if_neg (by omega)]

/-- C9 witness: the B-range conjunct applied at 512. -/
theorem format_size_spec_witness : format_size 512 = Nat.repr 512 ++ ".0 B" :=
  format_size_spec.2.2.2.1 512 (by decide)

/-- C4: for every hash function (Python's seeded `hash` builtin), every store
state and every non-empty URL, `put` followed by `get` on the token `put`
returned yields the original URL (nothing is ever evicted, so the binding
created by `put` is still the most recent one for that token). -/
theorem url_storage_roundtrip (h : String → Int)
    (store : List (String × String)) (url : String) (hne : url ≠ "") :
    url_storage_get (url_storage_put h store url).1
      (url_storage_put h store url).2 = some url := by
  simp [url_storage_put, url_storage_get, List.find?]

/-- C4 witness: a concrete hash function, the empty store and a concrete
URL. -/
theorem url_storage_roundtrip_witness :
    "https://youtu.be/dQw4w9WgXcQ" ≠ "" ∧
    url_storage_get
      (url_storage_put (fun s => Int.ofNat s.length) [] "https://youtu.be/dQw4w9WgXcQ").1
      (url_storage_put (fun s => Int.ofNat s.length) [] "https://youtu.be/dQw4w9WgXcQ").2 =
      some "https://youtu.be/dQw4w9WgXcQ" :=
  ⟨by decide,
   url_storage_roundtrip (fun s => Int.ofNat s.length) [] _ (by decide)⟩

/-- C5: the classifier realises first-match precedence over the declared
order YouTube, TikTok, Twitter/X (`is_valid_url` agrees everywhere with the
spec-side `classify_first_match`), it matches case-insensitively and with or
without a `www.` prefix (concrete instances below), and every URL matching no
pattern yields `isSupported = false`. -/
theorem is_valid_url_spec :
    (∀ url : String, is_valid_url url = classify_first_match url) ∧
    is_valid_url "https://www.youtube.com/watch?v=abc" = (true, some "youtube") ∧
    is_valid_url "YOUTU.BE/abc" = (true, some "youtube") ∧
    is_valid_url "https://m.youtube.com/shorts/xyz" = (true, some "youtube") ∧
    is_valid_url "https://WWW.TikTok.com/@user/video/1" = (true, some "tiktok") ∧
    is_valid_url "tiktok.com/@u/video/2" = (true, some "tiktok") ∧
    is_valid_url "https://twitter.com/u/status/3" = (true, some "twitter") ∧
    is_valid_url "https://www.X.com/u/status/4" = (true, some "twitter") ∧
    is_valid_url "https://www.youtube.com/watch?y=tiktok.com/" = (true, some "youtube") ∧
    is_valid_url "https://instagram.com/reel/5" = (false, none) ∧
    is_valid_url "not a url" = (false, none) := by
  refine ⟨?_, by decide, by decide, by decide, by decide, by decide, by decide,
    by decide, by decide, by decide, by decide⟩
  intro url
  cases hy : search_any youtube_patterns (strLower url) <;>
    cases ht : search_any tiktok_patterns (strLower url) <;>
      cases hw : search_any twitter_patterns (strLower url) <;>
        simp [is_valid_url, classify_first_match, platform_order, List.find?,
          hy, ht, hw]

/-- C1 (claim: every audio plan on every supported platform carries the fixed
mp3 audio-extraction post-processing step): the code attaches the
`FFmpegExtractAudio`/mp3 post-processor only inside the YouTube branch, so an
audio plan for a supported TikTok or Twitter/X URL carries no post-processing
step at all, while the later path-resolution step of `download_media`
(`resolve_artifact` with `.mp3` substitution) and the `Audio Only` buttons
offered for those platforms assume one exists. -/
theorem audio_postprocessing_gap :
    (is_valid_url "https://www.tiktok.com/@user/video/123").1 = true ∧
    (build_ydl_opts "https://www.tiktok.com/@user/video/123" "audio" "best"
      "cookies.txt").postprocessors = [] ∧
    (is_valid_url "https://twitter.com/user/status/1").1 = true ∧
    (build_ydl_opts "https://twitter.com/user/status/1" "audio" "best"
      "cookies.txt").postprocessors = [] ∧
    (build_ydl_opts "https://www.youtube.com/watch?v=abc" "audio" "best"
      "cookies.txt").postprocessors =
      [{ key := "FFmpegExtractAudio", preferredcodec := "mp3",
         preferredquality := "128" }] := by
  decide

/-- C2 counterexample: on a supported TikTok URL, quality `"best"` yields the
selector `best[height<=720]/best`, whose ceiling is 720, not "no ceiling";
and on a supported youtube.com URL, quality `"480"` yields
`bestvideo+bestaudio/best`, which has no 480 ceiling (the quality tier is
ignored). -/
theorem quality_ceiling_counterexample :
    (is_valid_url "https://www.tiktok.com/@user/video/123").1 = true ∧
    (build_ydl_opts "https://www.tiktok.com/@user/video/123" "video" "best"
      "cookies.txt").format = some "best[height<=720]/best" ∧
    selector_ceiling "best[height<=720]/best" = some 720 ∧
    (is_valid_url "https://www.youtube.com/watch?v=abc").1 = true ∧
    (build_ydl_opts "https://www.youtube.com/watch?v=abc" "video" "480"
      "cookies.txt").format = some "bestvideo+bestaudio/best" ∧
    selector_ceiling "bestvideo+bestaudio/best" = none := by
  decide

/-- C2 amended: for video plans whose URL does not contain `"youtube"` (TikTok
and Twitter/X, and also `youtu.be` short links), each numeric quality tier
maps to a selector whose ceiling is exactly that tier, while `"best"` maps to
a selector with ceiling 720 (with fallback to unconstrained best); for video
plans on `youtube.com` URLs the quality tier is ignored and the selector is
`bestvideo+bestaudio/best`, which has no ceiling. -/
theorem quality_ceiling_amended (url cookie_path : String) :
    (strContains url "youtube" = false →
      (build_ydl_opts url "video" "best" cookie_path).format =
        some "best[height<=720]/best" ∧
      selector_ceiling "best[height<=720]/best" = some 720) ∧
    (strContains url "youtube" = false →
      ∀ q : String × Nat,
        q ∈ ([("720", 720), ("480", 480), ("360", 360)] : List (String × Nat)) →
        (build_ydl_opts url "video" q.1 cookie_path).format =
          some ("best[height<=" ++ q.1 ++ "]/best") ∧
        selector_ceiling ("best[height<=" ++ q.1 ++ "]/best") = some q.2) ∧
    (strContains url "youtube.com" = true → strContains url "youtube" = true →
      ∀ quality : String,
        (build_ydl_opts url "video" quality cookie_path).format =
          some "bestvideo+bestaudio/best" ∧
        selector_ceiling "bestvideo+bestaudio/best" = none) := by
  refine ⟨?_, ?_, ?_⟩
  · intro h
    refine ⟨?_, by decide⟩
    simp [build_ydl_opts, h]
  · intro h q hq
    fin_cases hq <;> exact ⟨by simp [build_ydl_opts, h], by decide⟩
  · intro h1 h2 quality
    refine ⟨?_, by decide⟩
    simp [build_ydl_opts, h1, h2]

/-- C2 amended witness: a concrete TikTok URL at tier 480 and a concrete
youtube.com URL at tier 360. -/
theorem quality_ceiling_amended_witness :
    (build_ydl_opts "https://www.tiktok.com/@u/video/9" "video" "480"
      "cookies.txt").format = some "best[height<=480]/best" ∧
    (build_ydl_opts "https://www.youtube.com/watch?v=abc" "video" "360"
      "cookies.txt").format = some "bestvideo+bestaudio/best" := by
  constructor
  · have h := ((quality_ceiling_amended "https://www.tiktok.com/@u/video/9"
      "cookies.txt").2.1 (by decide) ("480", 480) (by decide)).1
    simpa using h
  · exact ((quality_ceiling_amended "https://www.youtube.com/watch?v=abc"
      "cookies.txt").2.2 (by decide) (by decide) "360").1

/-- C3: when a selected download produced an artifact (`download_media`
returned the `ok` triple), the artifact no longer exists in the final scratch
directory, whatever the terminal outcome; and when the artifact existed at
check time, the outcome is exactly `tooLarge` (with both sizes formatted), or
`delivered`/`deliveryFailed` according to the delivery result — in each of
which the artifact has been deleted. -/
theorem artifact_cleanup (store : List (String × String))
    (data f q tok url : String) (engine : EngineResult) (fs : Fs)
    (deliveryOk : Bool) (filepath filename : String) (meta : Metadata)
    (hsplit : split_on_bar data = ["dl", f, q, tok])
    (hget : url_storage_get store tok = some url)
    (hdl : download_media url f q engine fs = .ok filepath filename meta) :
    Fs.existsFile (handle_callback store data engine fs deliveryOk).2 filepath
      = false ∧
    (Fs.existsFile fs filepath = true →
      (handle_callback store data engine fs deliveryOk).1 =
        if MAX_FILE_SIZE < Fs.getsize fs filepath then
          Outcome.tooLarge (format_size (Fs.getsize fs filepath))
            (format_size MAX_FILE_SIZE)
        else if deliveryOk then Outcome.delivered
        else Outcome.deliveryFailed) := by
  have hnc := ne_cancel_of_split hsplit
  cases hex : Fs.existsFile fs filepath with
  | false =>
    simp [handle_callback, hnc, hsplit, hget, hdl, hex]
  | true =>
    by_cases hsz : MAX_FILE_SIZE < Fs.getsize fs filepath <;>
      simp [handle_callback, hnc, hsplit, hget, hdl, hex, hsz,
        Fs.existsFile_removeFile]

/-- C3 witness: a concrete successful download over the size limit; the
outcome is `tooLarge` and the artifact is gone. -/
theorem artifact_cleanup_witness :
    download_media "https://www.tiktok.com/@u/video/9" "video" "best"
      (.ok ⟨"t", 1, "u", 2, 3, "d", "temp/v.mp4"⟩)
      [⟨"temp/v.mp4", 5, 60000000⟩] =
      .ok "temp/v.mp4" "v.mp4" ⟨"t", 1, "u", 2, 3, "d"⟩ ∧
    Fs.existsFile
      (handle_callback [("h1", "https://www.tiktok.com/@u/video/9")]
        "dl|video|best|h1" (.ok ⟨"t", 1, "u", 2, 3, "d", "temp/v.mp4"⟩)
        [⟨"temp/v.mp4", 5, 60000000⟩] true).2 "temp/v.mp4" = false :=
  ⟨by decide,
   (artifact_cleanup [("h1", "https://www.tiktok.com/@u/video/9")]
      "dl|video|best|h1" "video" "best" "h1"
      "https://www.tiktok.com/@u/video/9"
      (.ok ⟨"t", 1, "u", 2, 3, "d", "temp/v.mp4"⟩)
      [⟨"temp/v.mp4", 5, 60000000⟩] true "temp/v.mp4" "v.mp4"
      ⟨"t", 1, "u", 2, 3, "d"⟩ (by decide) (by decide) (by decide)).1⟩

/-- C6: `get` on a token bound by no entry of the store returns `none` (it is
a total function, so it cannot throw), and the callback handler on such a
token reports `sessionExpired` with the scratch directory untouched, for
every engine oracle — so no download is attempted. -/
theorem session_expired_on_absent_token :
    (∀ (store : List (String × String)) (tok : String),
       (∀ e ∈ store, e.1 ≠ tok) → url_storage_get store tok = none) ∧
    (∀ (store : List (String × String)) (data f q tok : String)
       (engine : EngineResult) (fs : Fs) (deliveryOk : Bool),
       split_on_bar data = ["dl", f, q, tok] →
       url_storage_get store tok = none →
       handle_callback store data engine fs deliveryOk =
         (.sessionExpired, fs)) := by
  constructor
  · intro store tok h
    have hf : List.find? (fun e => e.1 == tok) store = none := by
      rw [List.find?_eq_none]
      intro e he
      simpa using h e he
    simp [url_storage_get, hf]
  · intro store data f q tok engine fs deliveryOk hsplit hget
    have hnc := ne_cancel_of_split hsplit
    simp [handle_callback, hnc, hsplit, hget]

/-- C6 witness: a store not containing the token `zz`. -/
theorem session_expired_on_absent_token_witness :
    url_storage_get [("aa", "https://youtu.be/a")] "zz" = none ∧
    handle_callback [("aa", "https://youtu.be/a")] "dl|audio|best|zz"
      (.err "boom") [] false = (.sessionExpired, []) :=
  ⟨session_expired_on_absent_token.1 [("aa", "https://youtu.be/a")] "zz"
     (by decide),
   session_expired_on_absent_token.2 [("aa", "https://youtu.be/a")]
     "dl|audio|best|zz" "audio" "best" "zz" (.err "boom") [] false
     (by decide)
     (session_expired_on_absent_token.1 [("aa", "https://youtu.be/a")] "zz"
       (by decide))⟩

/-- C7: every engine exception is caught and mapped to a typed failure value
(`download_media` is total on `err` oracles, returning the `TWITTER_ERROR`
sentinel or the failed triple, never the raw error); the sentinel is chosen
exactly when the lowercased message contains `twitter` or `x.com`, and the
handler turns the sentinel into the distinguished `platformBlocked` outcome
and every other engine failure into the generic `downloadFailed` outcome. -/
theorem engine_failure_typed :
    (∀ (url f q msg : String) (fs : Fs),
       download_media url f q (.err msg) fs =
         if strContains (strLower msg) "twitter" ||
            strContains (strLower msg) "x.com"
         then DlResult.twitterError else DlResult.failed) ∧
    (∀ (store : List (String × String)) (data f q tok url msg : String)
       (fs : Fs) (deliveryOk : Bool),
       split_on_bar data = ["dl", f, q, tok] →
       url_storage_get store tok = some url →
       handle_callback store data (.err msg) fs deliveryOk =
         ((if strContains (strLower msg) "twitter" ||
              strContains (strLower msg) "x.com"
           then Outcome.platformBlocked else Outcome.downloadFailed), fs)) := by
  constructor
  · intro url f q msg fs
    rfl
  · intro store data f q tok url msg fs deliveryOk hsplit hget
    have hnc := ne_cancel_of_split hsplit
    cases hb : strContains (strLower msg) "twitter" ||
        strContains (strLower msg) "x.com" <;>
      simp [handle_callback, download_media, hnc, hsplit, hget, hb]

/-- C7 witness: a concrete Twitter/X engine failure yields the distinguished
outcome. -/
theorem engine_failure_typed_witness :
    handle_callback [("h1", "https://x.com/u/status/1")] "dl|video|best|h1"
      (.err "ERROR: x.com rate limit") [] true = (.platformBlocked, []) := by
  have h := engine_failure_typed.2 [("h1", "https://x.com/u/status/1")]
    "dl|video|best|h1" "video" "best" "h1" "https://x.com/u/status/1"
    "ERROR: x.com rate limit" [] true (by decide) (by decide)
  rw [h]
  decide

/-- C8: for every predicted path and every formatType, the resolver first
forms its target path by substituting the `.mp3` extension exactly when the
formatType is audio (the hypothesis `htarget` is that substitution rule,
app.py lines 194-197); it returns the target when it exists; when the target
does not exist and the scratch directory is empty it fails (`none`, the
`return None, None, None` at line 205); and when the target does not exist
and the directory is non-empty it falls back to the path of a member whose
creation time is maximal — the most recently created file (lines 200-202).
With `format_type = "audio"` and `format_type = "video"` this instantiates to
both the audio case and the video remux-rename case. -/
theorem artifact_resolution (predicted format_type target : String) (fs : Fs)
    (htarget : target =
      if format_type == "audio" then splitext_base predicted ++ ".mp3"
      else predicted) :
    (Fs.existsFile fs target = true →
       resolve_artifact predicted format_type fs = some target) ∧
    (Fs.existsFile fs target = false → fs = [] →
       resolve_artifact predicted format_type fs = none) ∧
    (Fs.existsFile fs target = false →
       ∀ e rest, fs = e :: rest →
         resolve_artifact predicted format_type fs =
           some (maxByCtime e rest).path ∧
         maxByCtime e rest ∈ fs ∧
         ∀ g ∈ fs, g.ctime ≤ (maxByCtime e rest).ctime) := by
  subst htarget
  refine ⟨?_, ?_, ?_⟩
  · intro h
    simp only [resolve_artifact]
    rw [h]
    simp
  · intro h hfs
    subst hfs
    simp only [resolve_artifact]
    rw [h]
    simp
  · intro h e rest hfs
    subst hfs
    obtain ⟨hmem, hle, hall⟩ := maxByCtime_mem_le rest e
    refine ⟨by simp only [resolve_artifact]; rw [h]; simp, ?_, ?_⟩
    · rcases hmem with h1 | h1
      · rw [h1]; exact List.mem_cons_self e rest
      · exact List.mem_cons_of_mem e h1
    · intro g hg
      rcases List.mem_cons.mp hg with rfl | hg2
      · exact hle
      · exact hall g hg2

/-- C8 witness: video resolution whose predicted path is absent (the engine
remuxed/renamed it) falls back to the newest scratch file. -/
theorem artifact_resolution_witness :
    resolve_artifact "temp/clip.webm" "video"
      [⟨"temp/clip.mp4", 7, 100⟩, ⟨"temp/old.mp4", 3, 50⟩] =
      some "temp/clip.mp4" := by
  have h := ((artifact_resolution "temp/clip.webm" "video" "temp/clip.webm"
      [⟨"temp/clip.mp4", 7, 100⟩, ⟨"temp/old.mp4", 3, 50⟩] (by decide)).2.2
      (by decide) ⟨"temp/clip.mp4", 7, 100⟩ [⟨"temp/old.mp4", 3, 50⟩] rfl).1
  simpa using h

/-- C10: a callback payload that is not the literal `cancel` and does not
split on `|` into exactly four parts whose first part is `dl` makes the
handler return the `ignored` outcome with the scratch directory unchanged —
for every store, engine oracle and delivery oracle, so no token-store lookup,
download or state change can have occurred. -/
theorem malformed_callback_ignored (store : List (String × String))
    (data : String) (engine : EngineResult) (fs : Fs) (deliveryOk : Bool)
    (hnc : data ≠ "cancel")
    (hbad : (split_on_bar data).length ≠ 4 ∨
            (split_on_bar data).getD 0 "" ≠ "dl") :
    handle_callback store data engine fs deliveryOk = (.ignored, fs) := by
  simp only [handle_callback, if_neg hnc, if_pos hbad]

/-- C10 witness: the payload `hello`. -/
theorem malformed_callback_ignored_witness :
    "hello" ≠ "cancel" ∧
    handle_callback [("aa", "u")] "hello" (.err "boom") [] true =
      (.ignored, []) :=
  ⟨by decide,
   malformed_callback_ignored [("aa", "u")] "hello" (.err "boom") [] true
     (by decide) (by decide)⟩
